import Mathlib

/-!
Verification of the process-monitor addons of vscode-fastolympiccoding.

Shallow embedding of the native addons under src/src/addons:
  darwin-process-monitor.cpp, win32-process-monitor.cpp,
  linux-process-monitor.cpp, judge.cpp.

Each platform monitor is modelled as a pure function over an explicit
trace of wake-up events (what the kernel wait primitive delivered on
each loop iteration), the final rusage / accounting numbers and the
raw wait status.  Machine integers are modelled as Nat; the C++ code
never relies on overflow in the quantities involved.  Floating point
comparisons against 0.95 and 0.9 of a limit are modelled as the exact
rational comparisons (cross-multiplied over Nat).
-/

namespace Spec2Proof

/-- Resolved result object common to the darwin and win32 monitors
(OnOK in both files sets exactly these keys: elapsedMs,
peakMemoryBytes, exitCode, timedOut, memoryLimitExceeded, stopped).
Neither monitor puts a term-signal or term-code field in the object;
exitCode is null (none) in the signalled / NTSTATUS cases. -/
structure AddonResult where
  elapsedMs : Nat
  peakMemoryBytes : Nat
  exitCode : Option Int
  timedOut : Bool
  memoryLimitExceeded : Bool
  stopped : Bool
  deriving Repr, DecidableEq

/-- Cause flags accumulated by a monitor loop. -/
structure LoopFlags where
  timedOut : Bool := false
  memoryLimitExceeded : Bool := false
  stopped : Bool := false
  deriving Repr, DecidableEq

/-- Result of wait4: the child either exited with a code or was
terminated by a signal (wait4 without WUNTRACED returns no other
status, so the dead `exitCode_ = -1` fallback branch of the C++ has no
counterpart). -/
inductive WaitStatus where
  | exited (code : Nat)
  | signaled (sig : Nat)
  deriving Repr, DecidableEq

/-- Final rusage numbers collected at reap time: user+system CPU time
in microseconds and ru_maxrss already converted to bytes. -/
structure Rusage where
  cpuUs : Nat
  maxrssBytes : Nat
  deriving Repr, DecidableEq

namespace Darwin

/-- ProcessStats as filled in by GetProcessStats (proc_pid_rusage with
the Mach timebase conversion already applied to the CPU time). -/
structure ProcessStats where
  resident_size : Nat
  phys_footprint : Nat
  total_cpu_time_ns : Nat
  success : Bool
  deriving Repr, DecidableEq

/-- The two kqueue filters registered by WaitForProcessWorker::Execute:
EVFILT_PROC with NOTE_EXIT, and EVFILT_USER for cancellation. -/
inductive KFilter where
  | proc
  | user
  deriving Repr, DecidableEq

/-- One iteration of the darwin monitor loop, as seen by the code:
which single event (if any) the kevent call returned, what
GetProcessStats would report if probed on this iteration, and the
wall-clock milliseconds elapsed since the loop started. -/
structure WakeEvent where
  delivered : Option KFilter
  stats : ProcessStats
  elapsedWallMs : Nat
  deriving Repr, DecidableEq

/-- Choice the kernel makes when kevent is asked for at most one event
(the code passes an event buffer of size 1): if both the process-exit
event and the user event are pending, kqueue returns one of them; the
kevent interface gives no ordering guarantee between filters, so the
choice is an input of the model. -/
def kqueueDeliver (exitPending userPending kernelChoosesUser : Bool) : Option KFilter :=
  if exitPending && userPending then
    some (if kernelChoosesUser then KFilter.user else KFilter.proc)
  else if userPending then some KFilter.user
  else if exitPending then some KFilter.proc
  else none

/-- Body of the `nev == 0` branch of the darwin loop: the stats checks
(guarded by a configured limit and a successful probe; memory first,
then CPU) followed by the wall-clock safety net.  Returns some flags
when the loop breaks on this iteration, none when it continues. -/
def darwinTick (timeoutMs memoryLimitBytes : Nat) (w : WakeEvent)
    (f : LoopFlags) : Option LoopFlags :=
  if ((memoryLimitBytes > 0 ∨ timeoutMs > 0) ∧ w.stats.success = true) then
    if (memoryLimitBytes > 0 ∧ w.stats.resident_size > memoryLimitBytes) then
      some { f with memoryLimitExceeded := true }
    else if (timeoutMs > 0 ∧ w.stats.total_cpu_time_ns > timeoutMs * 1000000) then
      some { f with timedOut := true }
    else if (timeoutMs > 0 ∧ w.elapsedWallMs > timeoutMs * 2) then
      some { f with timedOut := true }
    else none
  else if (timeoutMs > 0 ∧ w.elapsedWallMs > timeoutMs * 2) then
    some { f with timedOut := true }
  else none

/-- The darwin monitor loop (the `while (true)` of
WaitForProcessWorker::Execute), driven by the trace of kevent
outcomes.  EVFILT_USER sets stopped and breaks (the kill is a side
effect on the child); EVFILT_PROC breaks; a timeout runs the tick
checks.  Returns none when the trace is exhausted with the loop still
running. -/
def darwinLoop (timeoutMs memoryLimitBytes : Nat) :
    List WakeEvent → LoopFlags → Option LoopFlags
  | [], _ => none
  | w :: ws, f =>
    match w.delivered with
    | some KFilter.user => some { f with stopped := true }
    | some KFilter.proc => some f
    | none =>
      match darwinTick timeoutMs memoryLimitBytes w f with
      | some f₁ => some f₁
      | none => darwinLoop timeoutMs memoryLimitBytes ws f

/-- SIGXCPU on macOS (BSD signal numbering): the CPU-time-limit
signal, sent by the kernel when RLIMIT_CPU is exceeded (the repo sets
that limit through rlimit-wrapper.c). -/
def SIGXCPU : Nat := 24

/-- Everything after the loop in the darwin Execute, plus OnOK:
elapsedMs is std::round of rusage user+system in ms; the post-mortem
CPU and memory re-checks; the exit-status analysis (termSignal_ set
iff the child was signalled, and a SIGXCPU death additionally sets
timedOut_, the SIGKILL and other-signal branches setting no flag);
OnOK nulls exitCode exactly when termSignal_ > 0 and copies the three
flags.  The record contains no term-signal field. -/
def darwinFinish (timeoutMs memoryLimitBytes : Nat) (f : LoopFlags)
    (ru : Rusage) (st : WaitStatus) : AddonResult :=
  let elapsedMs := (ru.cpuUs + 500) / 1000
  let timedOutPost :=
    f.timedOut || decide (timeoutMs > 0 ∧ elapsedMs > timeoutMs)
  let peak := ru.maxrssBytes
  let mle := f.memoryLimitExceeded ||
    decide (memoryLimitBytes > 0 ∧ peak > memoryLimitBytes)
  let termSignal : Nat :=
    match st with
    | WaitStatus.signaled sig => sig
    | WaitStatus.exited _ => 0
  let timedOut :=
    timedOutPost || decide (st = WaitStatus.signaled SIGXCPU)
  let exitCode : Int :=
    match st with
    | WaitStatus.signaled sig => 128 + (sig : Int)
    | WaitStatus.exited c => (c : Int)
  { elapsedMs := elapsedMs
    peakMemoryBytes := peak
    exitCode := if termSignal > 0 then none else some exitCode
    timedOut := timedOut
    memoryLimitExceeded := mle
    stopped := f.stopped }

/-- Whole darwin worker run: loop then finish.  none when the trace
does not reach a loop break. -/
def darwinExecute (timeoutMs memoryLimitBytes : Nat) (trace : List WakeEvent)
    (ru : Rusage) (st : WaitStatus) : Option AddonResult :=
  (darwinLoop timeoutMs memoryLimitBytes trace {}).map
    (fun f => darwinFinish timeoutMs memoryLimitBytes f ru st)

/-- SharedStopState of the darwin and win32 monitors: a closed flag
guarded by a mutex and a wake-up primitive (kqueue fd / event handle);
triggered records that the primitive has been fired. -/
structure SharedStopState where
  closed : Bool
  primitiveValid : Bool
  triggered : Bool
  deriving Repr, DecidableEq

/-- SharedStopState::SignalStop: under the lock, if closed or the
primitive is invalid return false; otherwise fire the primitive
(kevent NOTE_TRIGGER / SetEvent, which succeeds on a valid primitive)
and return its success. -/
def signalStop (s : SharedStopState) : SharedStopState × Bool :=
  if s.closed || !s.primitiveValid then (s, false)
  else ({ s with triggered := true }, true)

/-- SharedStopState::Close, called by the worker when it leaves the
wait loop. -/
def closeState (s : SharedStopState) : SharedStopState :=
  { s with closed := true }

/-- The JS cancel function exposed by SpawnProcess: the lambda body is
a bare `sharedState->SignalStop();` with no return statement, so the
boolean is discarded and the call evaluates to undefined (modelled as
none). -/
def cancelOp (s : SharedStopState) : SharedStopState × Option Bool :=
  ((signalStop s).1, none)

/-- Environment of one darwin SpawnProcess call: whether pipe(2) and
fcntl succeed, whether fork succeeds, and the errno the child wrote
into the close-on-exec error pipe (none when exec succeeded and the
pipe read returned 0 bytes). -/
structure SpawnEnv where
  pipeOk : Bool
  fcntlOk : Bool
  forkOk : Bool
  childErr : Option Nat
  deriving Repr, DecidableEq

/-- Outcome of SpawnProcess as seen by the caller: either a
synchronous JS exception (thrown before any worker exists), or the
handle object, with the worker queued. -/
inductive SpawnOutcome where
  | threw (which : Nat)
  | spawned (workerQueued : Bool)
  deriving Repr, DecidableEq

/-- Darwin SpawnProcess control flow: pipe failure, fcntl failure and
fork failure each throw; a non-empty read from the error pipe (the
child could not connect its sockets, dup2, chdir or exec) reaps the
child and throws strerror(childErr); only otherwise is the
WaitForProcessWorker constructed and queued. -/
def spawnProcess (env : SpawnEnv) : SpawnOutcome :=
  if !env.pipeOk then SpawnOutcome.threw 0
  else if !env.fcntlOk then SpawnOutcome.threw 1
  else if !env.forkOk then SpawnOutcome.threw 2
  else
    match env.childErr with
    | some _ => SpawnOutcome.threw 3
    | none => SpawnOutcome.spawned true

/-- Argv built in the child before execvp: the command followed by
each argument string unchanged (the terminating nullptr is dropped).
No shell is involved. -/
def buildArgv (command : String) (args : List String) : List String :=
  command :: args

end Darwin

namespace Win32

/-- One iteration of the win32 monitor loop: wall-clock ms elapsed at
the top of the iteration, which of the two waited handles are
signalled when WaitForMultipleObjects runs, and the job-accounting
total CPU ms if the tick query succeeds (none when
QueryInformationJobObject fails). -/
structure Iter where
  elapsedWall : Nat
  processSignaled : Bool
  stopSignaled : Bool
  accountingMs : Option Nat
  deriving Repr, DecidableEq

/-- Outcome of WaitForMultipleObjects over the two handles. -/
inductive WaitRes where
  | objProcess
  | objStop
  | timeout
  deriving Repr, DecidableEq

/-- WaitForMultipleObjects with bWaitAll = FALSE over
waitHandles = [hProcess, hStopEvent]: the documented semantics return
the smallest index among the signalled objects, so a signalled process
handle always wins over a signalled stop event. -/
def waitForMultipleObjects (processSignaled stopSignaled : Bool) : WaitRes :=
  if processSignaled then WaitRes.objProcess
  else if stopSignaled then WaitRes.objStop
  else WaitRes.timeout

/-- Loop state of the win32 Execute (flags plus processExited). -/
structure LoopState where
  timedOut : Bool := false
  memoryLimitExceeded : Bool := false
  stopped : Bool := false
  processExited : Bool := false
  deriving Repr, DecidableEq

/-- The win32 wait loop `while (!processExited && !stopped_)` of
WaitForProcessWorker::Execute: the wall-clock safety check (which sets
both timedOut_ and stopped_), then the two-handle wait, then on a
timeout slice the job CPU accounting check (which also sets both
timedOut_ and stopped_).  Returns none when the trace is exhausted
with the loop still running. -/
def win32Loop (timeoutMs : Nat) : List Iter → LoopState → Option LoopState
  | [], _ => none
  | it :: its, s =>
    if (timeoutMs > 0 ∧ it.elapsedWall ≥ timeoutMs * 2) then
      some { s with timedOut := true, stopped := true }
    else
      match waitForMultipleObjects it.processSignaled it.stopSignaled with
      | WaitRes.objProcess => some { s with processExited := true }
      | WaitRes.objStop => some { s with stopped := true }
      | WaitRes.timeout =>
        match it.accountingMs with
        | some totalTimeMs =>
          if (timeoutMs > 0 ∧ totalTimeMs > timeoutMs) then
            some { s with timedOut := true, stopped := true }
          else win32Loop timeoutMs its s
        | none => win32Loop timeoutMs its s

/-- The post-loop status classification of the win32 Execute: the
quota-exceeded statuses 0xC0000044 and 0x705 are disambiguated by
accumulated user time when a CPU limit is configured (the C++ compares
totalUserTime100ns >= timeLimit100ns * 0.95 in double; modelled as the
exact comparison 20 u >= 19 L), and default to memoryLimitExceeded
otherwise; any other non-zero exit code with a configured memory limit
sets memoryLimitExceeded when peak memory reached 90 percent of the
limit (peak >= limit * 0.9, modelled as 10 p >= 9 m). -/
def win32Classify (timeoutMs memoryLimitBytes exitCode userTime100ns
    peakMemoryBytes : Nat) (s : LoopState) : LoopState :=
  if (exitCode = 0xC0000044 ∨ exitCode = 0x705) then
    if timeoutMs > 0 then
      if 20 * userTime100ns ≥ 19 * (timeoutMs * 10000) then
        { s with timedOut := true }
      else
        { s with memoryLimitExceeded := true }
    else { s with memoryLimitExceeded := true }
  else if (exitCode ≠ 0 ∧ memoryLimitBytes > 0) then
    if 10 * peakMemoryBytes ≥ 9 * memoryLimitBytes then
      { s with memoryLimitExceeded := true }
    else s
  else s

/-- OnOK of the win32 monitor: exitCode is nulled exactly when the raw
status (as an unsigned 32-bit value) is at least 0xC0000000; the raw
status is not put into the record in that case.  No term-code key
exists in the object. -/
def win32BuildResult (exitCode elapsedMs peakMemoryBytes : Nat)
    (s : LoopState) : AddonResult :=
  { elapsedMs := elapsedMs
    peakMemoryBytes := peakMemoryBytes
    exitCode := if exitCode ≥ 0xC0000000 then none else some (exitCode : Int)
    timedOut := s.timedOut
    memoryLimitExceeded := s.memoryLimitExceeded
    stopped := s.stopped }

/-- Whole win32 worker run after spawn: wait loop, classification of
the final exit code, result object. -/
def win32Execute (timeoutMs memoryLimitBytes : Nat) (trace : List Iter)
    (exitCode userTime100ns peakMemoryBytes elapsedMs : Nat) :
    Option AddonResult :=
  (win32Loop timeoutMs trace {}).map (fun s =>
    win32BuildResult exitCode elapsedMs peakMemoryBytes
      (win32Classify timeoutMs memoryLimitBytes exitCode userTime100ns
        peakMemoryBytes s))

end Win32

namespace LinuxMon

/-- One iteration of the linux pidfd wait loop: wall-clock
microseconds elapsed at the top of the iteration, whether poll
reported POLLIN and wait4 WNOHANG reaped the child, and the VmRSS
sample in bytes if /proc/pid/status could be read (none otherwise). -/
structure Iter where
  elapsedUs : Nat
  pollExited : Bool
  rssSampleBytes : Option Nat
  deriving Repr, DecidableEq

/-- Loop state of the linux Execute. -/
structure LoopState where
  timedOut : Bool := false
  memoryLimitExceeded : Bool := false
  stopped : Bool := false
  processExited : Bool := false
  deriving Repr, DecidableEq

/-- The linux pidfd wait loop of WaitForProcessWorker::Execute: each
iteration first checks the wall-clock time limit (elapsedUs >=
timeoutMs * 1000: kill and break with timedOut), then the poll result
(process exit breaks), and only then the VmRSS memory sample (kill and
break with memoryLimitExceeded).  There is no CPU-time probe in the
loop.  Returns none when the trace is exhausted while the loop still
runs. -/
def linuxLoop (timeoutMs memoryLimitBytes : Nat) :
    List Iter → LoopState → Option LoopState
  | [], _ => none
  | it :: its, s =>
    if (timeoutMs > 0 ∧ it.elapsedUs ≥ timeoutMs * 1000) then
      some { s with timedOut := true, processExited := true }
    else if it.pollExited then
      some { s with processExited := true }
    else
      match it.rssSampleBytes with
      | some rssBytes =>
        if (memoryLimitBytes > 0 ∧ rssBytes > memoryLimitBytes) then
          some { s with memoryLimitExceeded := true, processExited := true }
        else linuxLoop timeoutMs memoryLimitBytes its s
      | none => linuxLoop timeoutMs memoryLimitBytes its s

/-- Resolved result of the linux monitor (OnOK keys): exitCode is
always a number, WEXITSTATUS for a normal exit and 128 + WTERMSIG for
a signalled child; no term-signal key and no null exitCode exist.
elapsedMs_ is cpuUs / 1000.0 with no rounding, so the microsecond
count is kept here. -/
structure LinuxResult where
  elapsedCpuUs : Nat
  peakMemoryBytes : Nat
  exitCode : Int
  timedOut : Bool
  memoryLimitExceeded : Bool
  stopped : Bool
  deriving Repr, DecidableEq

/-- Everything after the linux wait loop: stats are copied from rusage
and the exit code computed; the flags are taken from the loop state
unchanged (the linux Execute has no post-mortem limit re-check). -/
def linuxFinish (ru : Rusage) (st : WaitStatus) (s : LoopState) : LinuxResult :=
  { elapsedCpuUs := ru.cpuUs
    peakMemoryBytes := ru.maxrssBytes
    exitCode :=
      match st with
      | WaitStatus.exited c => (c : Int)
      | WaitStatus.signaled sig => 128 + (sig : Int)
    timedOut := s.timedOut
    memoryLimitExceeded := s.memoryLimitExceeded
    stopped := s.stopped }

/-- Whole linux worker run (pidfd path). -/
def linuxExecute (timeoutMs memoryLimitBytes : Nat) (trace : List Iter)
    (ru : Rusage) (st : WaitStatus) : Option LinuxResult :=
  (linuxLoop timeoutMs memoryLimitBytes trace {}).map
    (fun s => linuxFinish ru st s)

end LinuxMon

namespace Judge

/-- ProcessResult of judge.cpp; OnOK copies exactly these fields into
the object handed to the completion callback. -/
structure ProcessResult where
  exitCode : Int := 0
  termSignal : Nat := 0
  elapsedMs : Nat := 0
  maxMemoryBytes : Nat := 0
  timedOut : Bool := false
  memoryLimitExceeded : Bool := false
  spawnError : Bool := false
  deriving Repr, DecidableEq

/-- JudgeWorker::Execute when uv_spawn fails (executable missing,
bad cwd, ...): the worker sets result.spawnError = true, releases the
callbacks, closes its pipes and returns without SetError, so OnOK
resolves the completion callback with this record.  When uv_spawn
succeeds the run continues and produces the given record. -/
def executeResult (uvSpawnErr : Option Int) (run : ProcessResult) :
    ProcessResult :=
  match uvSpawnErr with
  | some _ => { spawnError := true }
  | none => run

/-- Argument vector handed to uv_spawn: each command string is copied
byte for byte (strcpy) into args, followed by the nullptr terminator
which is dropped here. -/
def buildArgs (command : List String) : List String :=
  command

/-- StdinState of judge.cpp, shared between the ProcessHandle and the
worker; workerActive is flipped to false by the JudgeWorker
destructor. -/
structure StdinState where
  buffer : String
  closed : Bool
  killRequested : Bool
  workerActive : Bool
  hasAsync : Bool
  deriving Repr, DecidableEq

/-- The JudgeWorker destructor: mark the worker inactive so the
ProcessHandle operations become no-ops. -/
def workerFinish (s : StdinState) : StdinState :=
  { s with workerActive := false }

/-- ProcessHandle::WriteStdin with a string argument: when the worker
is gone the call silently returns undefined; otherwise it appends to
the shared buffer and signals the async handle if one is registered.
The boolean reports whether uv_async_send was invoked. -/
def writeStdin (s : StdinState) (data : String) : StdinState × Bool :=
  if !s.workerActive then (s, false)
  else ({ s with buffer := s.buffer ++ data }, s.hasAsync)

/-- ProcessHandle::EndStdin: a no-op when the worker is inactive. -/
def endStdin (s : StdinState) : StdinState × Bool :=
  if s.workerActive then ({ s with closed := true }, s.hasAsync)
  else (s, false)

/-- ProcessHandle::Kill: a no-op when the worker is inactive. -/
def killOp (s : StdinState) : StdinState × Bool :=
  if s.workerActive then ({ s with killRequested := true }, s.hasAsync)
  else (s, false)

end Judge

namespace WinCmd

/-- Backslash character. -/
def bsl : Char := '\\'

/-- Double-quote character. -/
def qt : Char := '"'

/-- The find_first_of check of QuoteArg: space, tab, newline,
vertical tab (0x0B) or double quote force quoting. -/
def needsQuotes (arg : List Char) : Bool :=
  arg.any (fun c =>
    c = ' ' || c = Char.ofNat 9 || c = Char.ofNat 10 || c = Char.ofNat 11 || c = qt)

/-- The character loop of QuoteArg with n pending backslashes already
consumed: at the end of the string pending backslashes are doubled
(they precede the added closing quote); before an embedded quote they
are doubled and one more backslash escapes the quote; before any other
character they are emitted as-is. -/
def quoteBodyAux : Nat → List Char → List Char
  | n, [] => List.replicate (2 * n) bsl
  | n, c :: cs =>
    if c = bsl then quoteBodyAux (n + 1) cs
    else if c = qt then
      List.replicate (2 * n + 1) bsl ++ qt :: quoteBodyAux 0 cs
    else
      List.replicate n bsl ++ c :: quoteBodyAux 0 cs

/-- QuoteArg of win32-process-monitor.cpp: the empty argument becomes
a pair of quotes; an argument without whitespace or quotes is returned
unchanged; otherwise the escaped body is wrapped in quotes. -/
def quoteArg (arg : List Char) : List Char :=
  if arg = [] then [qt, qt]
  else if needsQuotes arg then qt :: (quoteBodyAux 0 arg ++ [qt])
  else arg

/-- Windows command-line splitting rules for one token (the rules of
CommandLineToArgvW for backslashes and quotes, which the claim names
as the reference semantics): backslashes are counted; a quote
preceded by 2n backslashes yields n backslashes and toggles the
in-quotes state; a quote preceded by 2n+1 backslashes yields n
backslashes and a literal quote; space and tab end the token outside
quotes; every other character is literal, with pending backslashes
flushed before it.  The result is the decoded token. -/
def parseTok : Bool → Nat → List Char → List Char
  | _, bs, [] => List.replicate bs bsl
  | inQ, bs, c :: cs =>
    if c = bsl then parseTok inQ (bs + 1) cs
    else if c = qt then
      List.replicate (bs / 2) bsl ++
        (if bs % 2 = 1 then qt :: parseTok inQ 0 cs else parseTok (!inQ) 0 cs)
    else if ((c = ' ' ∨ c = Char.ofNat 9) ∧ inQ = false) then
      List.replicate bs bsl
    else List.replicate bs bsl ++ c :: parseTok inQ 0 cs

end WinCmd

/-- Number of cause flags set in a loop-flag record. -/
def flagCount (f : LoopFlags) : Nat :=
  (if f.timedOut then 1 else 0) + (if f.memoryLimitExceeded then 1 else 0) +
    (if f.stopped then 1 else 0)

/-- Number of cause flags set in a resolved addon result. -/
def causeCount (r : AddonResult) : Nat :=
  (if r.timedOut then 1 else 0) + (if r.memoryLimitExceeded then 1 else 0) +
    (if r.stopped then 1 else 0)

/-- The dichotomy claimed by the spec for every completed spawn
(section 8 of the spec): either the child exited normally and the
record carries a non-null exit code and no termination signal or code,
or the exit code is null and at least one of term_signal / term_code
is recorded.  The two disjuncts exclude each other, so exactly-one
coincides with at-least-one. -/
def specExitDichotomy (normalExit : Bool) (exitCodeOpt : Option Int)
    (termRecorded : Bool) : Prop :=
  (normalExit = true ∧ exitCodeOpt ≠ none ∧ termRecorded = false) ∨
    (exitCodeOpt = none ∧ termRecorded = true)

instance (n : Bool) (e : Option Int) (t : Bool) :
    Decidable (specExitDichotomy n e t) := by
  unfold specExitDichotomy; infer_instance

/-! ## Helper lemmas -/

theorem replicate_append_cons {α : Type} (n : Nat) (a : α) (l : List α) :
    List.replicate n a ++ a :: l = List.replicate (n + 1) a ++ l := by
  rw [List.replicate_succ', List.append_assoc, List.singleton_append]

namespace WinCmd

theorem parseTok_replicate (inQ : Bool) (bs k : Nat) (xs : List Char) :
    parseTok inQ bs (List.replicate k bsl ++ xs) = parseTok inQ (bs + k) xs := by
  induction k generalizing bs with
  | zero => simp
  | succ k ih =>
    rw [List.replicate_succ, List.cons_append]
    show parseTok inQ bs (bsl :: (List.replicate k bsl ++ xs)) = _
    rw [parseTok, if_pos rfl, ih]
    congr 1
    omega

theorem parseTok_quoteBodyAux (arg : List Char) (n : Nat) (tl : List Char) :
    parseTok true 0 (quoteBodyAux n arg ++ (qt :: tl)) =
      List.replicate n bsl ++ arg ++ parseTok false 0 tl := by
  induction arg generalizing n with
  | nil =>
    rw [quoteBodyAux, parseTok_replicate]
    rw [parseTok, if_neg (by decide), if_pos rfl]
    have h1 : (0 + 2 * n) / 2 = n := by omega
    have h2 : ¬((0 + 2 * n) % 2 = 1) := by omega
    rw [h1, if_neg h2]
    simp
  | cons c cs ih =>
    by_cases hc1 : c = bsl
    · subst hc1
      rw [quoteBodyAux, if_pos rfl, ih (n + 1)]
      rw [show List.replicate (n + 1) bsl ++ cs ++ parseTok false 0 tl =
            List.replicate (n + 1) bsl ++ (cs ++ parseTok false 0 tl) from
          List.append_assoc _ _ _]
      rw [show List.replicate n bsl ++ bsl :: cs ++ parseTok false 0 tl =
            List.replicate n bsl ++ (bsl :: cs ++ parseTok false 0 tl) from
          List.append_assoc _ _ _]
      rw [← replicate_append_cons]
      simp
    · by_cases hc2 : c = qt
      · subst hc2
        rw [quoteBodyAux, if_neg hc1, if_pos rfl]
        rw [List.append_assoc, List.cons_append, parseTok_replicate]
        rw [parseTok, if_neg (by decide), if_pos rfl]
        have h1 : (0 + (2 * n + 1)) / 2 = n := by omega
        have h2 : (0 + (2 * n + 1)) % 2 = 1 := by omega
        rw [h1, if_pos h2, ih 0]
        simp
      · rw [quoteBodyAux, if_neg hc1, if_neg hc2]
        rw [List.append_assoc, List.cons_append, parseTok_replicate]
        rw [parseTok, if_neg hc1, if_neg hc2,
          if_neg (by simp), Nat.zero_add, ih 0]
        simp

theorem parseTok_plain (xs : List Char) (tl : List Char)
    (hxs : ∀ c ∈ xs, ¬(c = qt ∨ c = ' ' ∨ c = Char.ofNat 9))
    (htl : ∀ k, parseTok false k tl = List.replicate k bsl) :
    ∀ n, parseTok false n (xs ++ tl) = List.replicate n bsl ++ xs := by
  induction xs with
  | nil => intro n; simpa using htl n
  | cons c cs ih =>
    intro n
    have hmem := hxs c (List.mem_cons_self c cs)
    have hrest : ∀ x ∈ cs, ¬(x = qt ∨ x = ' ' ∨ x = Char.ofNat 9) :=
      fun x hx => hxs x (List.mem_cons_of_mem c hx)
    by_cases hc1 : c = bsl
    · subst hc1
      rw [List.cons_append, parseTok, if_pos rfl, ih hrest (n + 1)]
      rw [← replicate_append_cons]
    · have hc2 : ¬c = qt := fun h => hmem (Or.inl h)
      have hc3 : ¬((c = ' ' ∨ c = Char.ofNat 9) ∧ false = false) := by
        rintro ⟨h, -⟩
        exact hmem (Or.inr h)
      rw [List.cons_append, parseTok, if_neg hc1, if_neg hc2, if_neg hc3,
        ih hrest 0]
      simp

theorem parseTok_end_nil (k : Nat) :
    parseTok false k [] = List.replicate k bsl := by
  rw [parseTok]

theorem parseTok_end_space (k : Nat) (rest : List Char) :
    parseTok false k (' ' :: rest) = List.replicate k bsl := by
  rw [parseTok, if_neg (by decide), if_neg (by decide),
    if_pos (by simp)]

theorem quoteArg_roundTrip (arg tl : List Char)
    (htl : ∀ k, parseTok false k tl = List.replicate k bsl) :
    parseTok false 0 (quoteArg arg ++ tl) = arg := by
  rw [quoteArg]
  by_cases h1 : arg = []
  · subst h1
    rw [if_pos rfl]
    rw [show ([qt, qt] ++ tl) = qt :: qt :: tl from rfl]
    rw [parseTok, if_neg (by decide), if_pos rfl, if_neg (by decide)]
    rw [parseTok, if_neg (by decide), if_pos rfl, if_neg (by decide)]
    simpa using htl 0
  · rw [if_neg h1]
    by_cases h2 : needsQuotes arg = true
    · rw [if_pos h2]
      rw [List.cons_append, List.append_assoc, List.singleton_append]
      rw [parseTok, if_neg (by decide), if_pos rfl, if_neg (by decide)]
      simp only [Nat.zero_div, List.replicate_zero, List.nil_append,
        Bool.not_false]
      rw [parseTok_quoteBodyAux arg 0 tl]
      simpa using htl 0
    · rw [if_neg h2]
      have hxs : ∀ c ∈ arg, ¬(c = qt ∨ c = ' ' ∨ c = Char.ofNat 9) := by
        intro c hc hbad
        have hany := List.any_eq_false.mp (Bool.not_eq_true _ ▸ h2 : needsQuotes arg = false) c hc
        rcases hbad with h | h | h <;> subst h <;> simp_all [needsQuotes]
      simpa using parseTok_plain arg tl hxs htl 0

end WinCmd

namespace Darwin

theorem darwinTick_break_shape (t m : Nat) (w : WakeEvent) (f f₁ : LoopFlags)
    (h : darwinTick t m w f = some f₁) :
    f₁ = { f with memoryLimitExceeded := true } ∨
      f₁ = { f with timedOut := true } := by
  unfold darwinTick at h
  split_ifs at h <;> simp_all

theorem darwinTick_memFirst (t m : Nat) (w : WakeEvent) (f : LoopFlags)
    (hm : m > 0) (hs : w.stats.success = true)
    (hover : w.stats.resident_size > m) :
    darwinTick t m w f = some { f with memoryLimitExceeded := true } := by
  unfold darwinTick
  rw [if_pos ⟨Or.inl hm, hs⟩, if_pos ⟨hm, hover⟩]

theorem darwinTick_cpuSecond (t m : Nat) (w : WakeEvent) (f : LoopFlags)
    (ht : t > 0) (hs : w.stats.success = true)
    (hmem : ¬(m > 0 ∧ w.stats.resident_size > m))
    (hcpu : w.stats.total_cpu_time_ns > t * 1000000) :
    darwinTick t m w f = some { f with timedOut := true } := by
  unfold darwinTick
  rw [if_pos ⟨Or.inr ht, hs⟩, if_neg hmem, if_pos ⟨ht, hcpu⟩]

theorem darwinLoop_break_shape (t m : Nat) (tr : List WakeEvent)
    (f₀ f : LoopFlags) (h : darwinLoop t m tr f₀ = some f) :
    f = f₀ ∨ f = { f₀ with stopped := true } ∨
      f = { f₀ with memoryLimitExceeded := true } ∨
      f = { f₀ with timedOut := true } := by
  induction tr with
  | nil => simp [darwinLoop] at h
  | cons w ws ih =>
    rw [darwinLoop] at h
    rcases hd : w.delivered with - | k
    · rw [hd] at h
      rcases htk : darwinTick t m w f₀ with - | f₁
      · rw [htk] at h
        exact ih h
      · rw [htk] at h
        rcases darwinTick_break_shape t m w f₀ f₁ htk with h1 | h1 <;>
          simp_all
    · cases k <;> rw [hd] at h <;> simp_all

theorem darwinLoop_delivered_proc (t m : Nat) (w : WakeEvent)
    (ws : List WakeEvent) (f₀ : LoopFlags)
    (h : w.delivered = some KFilter.proc) :
    darwinLoop t m (w :: ws) f₀ = some f₀ := by
  rw [darwinLoop, h]

theorem darwinFinish_stopped (t m : Nat) (f : LoopFlags) (ru : Rusage)
    (st : WaitStatus) : (darwinFinish t m f ru st).stopped = f.stopped := rfl

theorem darwinFinish_exited_code (t m : Nat) (f : LoopFlags) (ru : Rusage)
    (c : Nat) :
    (darwinFinish t m f ru (WaitStatus.exited c)).exitCode = some (c : Int) := by
  simp [darwinFinish]

theorem darwinFinish_signaled_none (t m : Nat) (f : LoopFlags) (ru : Rusage)
    (sig : Nat) (hs : 1 ≤ sig) :
    (darwinFinish t m f ru (WaitStatus.signaled sig)).exitCode = none := by
  simp [darwinFinish]
  omega

theorem darwinFinish_postmortem_mem (t m : Nat) (f : LoopFlags) (ru : Rusage)
    (st : WaitStatus) (hm : m > 0) (hover : ru.maxrssBytes > m) :
    (darwinFinish t m f ru st).memoryLimitExceeded = true := by
  simp [darwinFinish, hm, hover]

theorem darwinFinish_postmortem_cpu (t m : Nat) (f : LoopFlags) (ru : Rusage)
    (st : WaitStatus) (ht : t > 0) (hover : (ru.cpuUs + 500) / 1000 > t) :
    (darwinFinish t m f ru st).timedOut = true := by
  simp [darwinFinish, ht, hover]

theorem darwinFinish_sigxcpu (t m : Nat) (f : LoopFlags) (ru : Rusage) :
    (darwinFinish t m f ru (WaitStatus.signaled SIGXCPU)).timedOut = true := by
  simp [darwinFinish]

theorem darwinFinish_unattributed (t m : Nat) (ru : Rusage) (sig : Nat)
    (hs : 1 ≤ sig) (hx : sig ≠ SIGXCPU)
    (hcpu : ¬(t > 0 ∧ (ru.cpuUs + 500) / 1000 > t))
    (hmem : ¬(m > 0 ∧ ru.maxrssBytes > m)) :
    (darwinFinish t m {} ru (WaitStatus.signaled sig)).timedOut = false ∧
      (darwinFinish t m {} ru (WaitStatus.signaled sig)).memoryLimitExceeded
        = false ∧
      (darwinFinish t m {} ru (WaitStatus.signaled sig)).stopped = false ∧
      (darwinFinish t m {} ru (WaitStatus.signaled sig)).exitCode = none := by
  refine ⟨?_, ?_, rfl, darwinFinish_signaled_none t m {} ru sig hs⟩ <;>
    simp [darwinFinish, hcpu, hmem, hx]

end Darwin

namespace Win32

theorem win32Loop_timedOut_stopped (t : Nat) (tr : List Iter)
    (s₀ s : LoopState) (hinv : s₀.timedOut = true → s₀.stopped = true)
    (h : win32Loop t tr s₀ = some s) :
    s.timedOut = true → s.stopped = true := by
  induction tr with
  | nil => simp [win32Loop] at h
  | cons it its ih =>
    rw [win32Loop] at h
    split_ifs at h with h1
    · rw [Option.some_inj] at h
      subst h
      intro _
      rfl
    · rcases hw : waitForMultipleObjects it.processSignaled it.stopSignaled with
        - | - | -
      · simp only [hw, Option.some.injEq] at h
        subst h
        exact hinv
      · simp only [hw, Option.some.injEq] at h
        subst h
        intro _
        rfl
      · simp only [hw] at h
        rcases ha : it.accountingMs with - | tot
        · simp only [ha] at h
          exact ih h
        · simp only [ha] at h
          split_ifs at h with h2
          · simp only [Option.some.injEq] at h
            subst h
            intro _
            rfl
          · exact ih h

theorem win32Loop_exit_priority (t : Nat) (it : Iter) (its : List Iter)
    (hwall : ¬(t > 0 ∧ it.elapsedWall ≥ t * 2))
    (hp : it.processSignaled = true) :
    win32Loop t (it :: its) {} =
      some { timedOut := false, memoryLimitExceeded := false,
             stopped := false, processExited := true } := by
  rw [win32Loop, if_neg hwall]
  unfold waitForMultipleObjects
  rw [hp]
  rfl

theorem win32Classify_quota_timeout (t m ec u pk : Nat) (s : LoopState)
    (hec : ec = 0xC0000044 ∨ ec = 0x705) (ht : 0 < t)
    (hu : 20 * u ≥ 19 * (t * 10000)) :
    win32Classify t m ec u pk s = { s with timedOut := true } := by
  unfold win32Classify
  rw [if_pos hec, if_pos ht, if_pos hu]

theorem win32Classify_quota_memory (t m ec u pk : Nat) (s : LoopState)
    (hec : ec = 0xC0000044 ∨ ec = 0x705) (ht : 0 < t)
    (hu : ¬(20 * u ≥ 19 * (t * 10000))) :
    win32Classify t m ec u pk s = { s with memoryLimitExceeded := true } := by
  unfold win32Classify
  rw [if_pos hec, if_pos ht, if_neg hu]

end Win32

namespace LinuxMon

theorem linuxLoop_timeFirst (t m : Nat) (it : Iter) (its : List Iter)
    (s : LoopState) (ht : t > 0) (hw : it.elapsedUs ≥ t * 1000) :
    linuxLoop t m (it :: its) s =
      some { s with timedOut := true, processExited := true } := by
  rw [linuxLoop, if_pos ⟨ht, hw⟩]

theorem linuxFinish_flags (ru : Rusage) (st : WaitStatus) (s : LoopState) :
    (linuxFinish ru st s).timedOut = s.timedOut ∧
      (linuxFinish ru st s).memoryLimitExceeded = s.memoryLimitExceeded ∧
      (linuxFinish ru st s).stopped = s.stopped :=
  ⟨rfl, rfl, rfl⟩

theorem linuxFinish_signaled (ru : Rusage) (sig : Nat) (s : LoopState) :
    (linuxFinish ru (WaitStatus.signaled sig) s).exitCode =
      128 + (sig : Int) := rfl

end LinuxMon

/-! ## Claim theorems -/

/-- C1 counterexample.  The claim states that no result future ever
resolves with spawn_error = true from the worker side.  In judge.cpp,
however, uv_spawn runs on the worker thread and on failure (for
example a missing executable) JudgeWorker::Execute records
spawnError = true and returns without SetError, so OnOK resolves the
completion callback with that record: spawn failures in the libuv
variant are asynchronous, not synchronous. -/
theorem C1_counterexample :
    (Judge.executeResult (some (-2)) {}).spawnError = true := rfl

/-- C1, amended.  In the darwin monitor addon every spawn-preventing
failure (pipe, fcntl, fork, or any pre-exec failure reported through
the close-on-exec error pipe) throws a synchronous error and no
monitor worker is queued; in the libuv judge variant a uv_spawn
failure instead resolves the completion callback from the worker with
spawn_error = true. -/
theorem C1_spawn_errors :
    (∀ env : Darwin.SpawnEnv,
      (env.pipeOk = false ∨ env.fcntlOk = false ∨ env.forkOk = false ∨
        env.childErr ≠ none) →
      ∃ w, Darwin.spawnProcess env = Darwin.SpawnOutcome.threw w) ∧
    (∀ (e : Int) (r : Judge.ProcessResult),
      (Judge.executeResult (some e) r).spawnError = true) := by
  refine ⟨?_, fun e r => rfl⟩
  rintro ⟨p, fc, fk, ce⟩ h
  cases p
  · exact ⟨0, rfl⟩
  · cases fc
    · exact ⟨1, rfl⟩
    · cases fk
      · exact ⟨2, rfl⟩
      · rcases ce with - | e
        · simp at h
        · exact ⟨3, rfl⟩

/-- Witness for C1_spawn_errors at a concrete failing exec. -/
theorem C1_spawn_errors_witness :
    (∃ w, Darwin.spawnProcess ⟨true, true, true, some 2⟩ =
      Darwin.SpawnOutcome.threw w) ∧
    (Judge.executeResult (some (-2)) {}).spawnError = true :=
  ⟨C1_spawn_errors.1 ⟨true, true, true, some 2⟩ (by simp),
   C1_spawn_errors.2 (-2) {}⟩

/-- C2 counterexample.  The claim requires at most one of timed_out,
memory_limit_exceeded, stopped to be true when the cause is
attributed.  On the Windows monitor, a poll tick that sees the job
CPU accounting above the limit sets both timedOut_ and stopped_
before breaking, so the resolved record carries two true flags. -/
theorem C2_counterexample :
    Win32.win32Execute 500 0 [⟨0, false, false, some 501⟩] 1 0 0 450 =
      some ⟨450, 0, some 1, true, false, true⟩ ∧
    causeCount ⟨450, 0, some 1, true, false, true⟩ = 2 := by
  exact ⟨by decide, by decide⟩

/-- C2, amended.  On the darwin monitor the wait loop itself sets at
most one cause flag when it breaks; a SIGXCPU death is attributed by
the classifier to timed_out; and an unattributed external kill (a
signal death other than SIGXCPU with neither post-mortem check
firing) yields a record with all three flags false and a null exit
code (the raw signal is not included in the resolved record).  On the
Windows monitor, however, every loop-detected CPU or wall-clock
breach sets stopped together with timed_out, and the darwin
post-mortem re-check can add flags on top of a stopped record. -/
theorem C2_flag_rules :
    (∀ (t m : Nat) (tr : List Darwin.WakeEvent) (f : LoopFlags),
      Darwin.darwinLoop t m tr {} = some f → flagCount f ≤ 1) ∧
    (∀ (t m : Nat) (f : LoopFlags) (ru : Rusage),
      (Darwin.darwinFinish t m f ru
        (WaitStatus.signaled Darwin.SIGXCPU)).timedOut = true) ∧
    (∀ (t m : Nat) (ru : Rusage) (sig : Nat), 1 ≤ sig →
      sig ≠ Darwin.SIGXCPU →
      ¬(t > 0 ∧ (ru.cpuUs + 500) / 1000 > t) →
      ¬(m > 0 ∧ ru.maxrssBytes > m) →
      causeCount (Darwin.darwinFinish t m {} ru (WaitStatus.signaled sig)) = 0
        ∧ (Darwin.darwinFinish t m {} ru (WaitStatus.signaled sig)).exitCode
            = none) ∧
    (∀ (t : Nat) (tr : List Win32.Iter) (s : Win32.LoopState),
      Win32.win32Loop t tr {} = some s →
      s.timedOut = true → s.stopped = true) := by
  refine ⟨?_, Darwin.darwinFinish_sigxcpu, ?_, ?_⟩
  · intro t m tr f h
    rcases Darwin.darwinLoop_break_shape t m tr {} f h with h1 | h1 | h1 | h1 <;>
      subst h1 <;> decide
  · intro t m ru sig hs hx hcpu hmem
    obtain ⟨h1, h2, h3, h4⟩ :=
      Darwin.darwinFinish_unattributed t m ru sig hs hx hcpu hmem
    refine ⟨?_, h4⟩
    simp [causeCount, h1, h2, h3]
  · intro t tr s h
    exact Win32.win32Loop_timedOut_stopped t tr {} s (fun hx => nomatch hx) h

/-- Witness for C2_flag_rules on concrete runs of all four parts. -/
theorem C2_flag_rules_witness :
    flagCount { timedOut := false, memoryLimitExceeded := false,
                stopped := true } ≤ 1 ∧
    (Darwin.darwinFinish 100 0 {} ⟨0, 0⟩
        (WaitStatus.signaled Darwin.SIGXCPU)).timedOut = true ∧
    (causeCount (Darwin.darwinFinish 0 0 {} ⟨0, 0⟩ (WaitStatus.signaled 9)) = 0
      ∧ (Darwin.darwinFinish 0 0 {} ⟨0, 0⟩ (WaitStatus.signaled 9)).exitCode
          = none) ∧
    ((⟨true, false, true, false⟩ : Win32.LoopState).timedOut = true →
      (⟨true, false, true, false⟩ : Win32.LoopState).stopped = true) :=
  ⟨C2_flag_rules.1 0 0 [⟨some Darwin.KFilter.user, ⟨0, 0, 0, false⟩, 0⟩] _
      (by decide),
   C2_flag_rules.2.1 100 0 {} ⟨0, 0⟩,
   C2_flag_rules.2.2.1 0 0 ⟨0, 0⟩ 9 (by decide) (by decide) (by decide)
      (by decide),
   C2_flag_rules.2.2.2 500 [⟨0, false, false, some 501⟩] _ (by decide)⟩

/-- C3 counterexample.  The claim requires every completed spawn to
satisfy: either a normal exit with a non-null exit code and no
termination signal or code recorded, or a null exit code with at
least one of term_signal / term_code set.  The linux monitor resolves
a child killed by signal 9 with exitCode 137 (non-null) and its
record has no termination-signal field at all, so neither disjunct
holds. -/
theorem C3_counterexample :
    (LinuxMon.linuxFinish ⟨0, 0⟩ (WaitStatus.signaled 9) {}).exitCode = 137 ∧
    ¬ specExitDichotomy false
        (some (LinuxMon.linuxFinish ⟨0, 0⟩ (WaitStatus.signaled 9) {}).exitCode)
        false :=
  ⟨rfl, by decide⟩

/-- C3, amended.  On the darwin monitor the exit code is the
WEXITSTATUS for a normal exit and null exactly for a signalled child,
but the raw signal is not included in the record; on linux the exit
code is always a number, 128 plus the signal for a signalled child;
on Windows the exit code is null exactly when the raw status is at
least 0xC0000000, with the raw status likewise dropped from the
record. -/
theorem C3_exit_code_reporting :
    (∀ (t m : Nat) (f : LoopFlags) (ru : Rusage) (c : Nat),
      (Darwin.darwinFinish t m f ru (WaitStatus.exited c)).exitCode
        = some (c : Int)) ∧
    (∀ (t m : Nat) (f : LoopFlags) (ru : Rusage) (sig : Nat), 1 ≤ sig →
      (Darwin.darwinFinish t m f ru (WaitStatus.signaled sig)).exitCode
        = none) ∧
    (∀ (ru : Rusage) (s : LinuxMon.LoopState) (sig : Nat),
      (LinuxMon.linuxFinish ru (WaitStatus.signaled sig) s).exitCode
        = 128 + (sig : Int)) ∧
    (∀ (ec el pk : Nat) (s : Win32.LoopState),
      (Win32.win32BuildResult ec el pk s).exitCode =
        if ec ≥ 0xC0000000 then none else some (ec : Int)) :=
  ⟨Darwin.darwinFinish_exited_code, Darwin.darwinFinish_signaled_none,
   fun ru s sig => rfl, fun ec el pk s => rfl⟩

/-- Witness for C3_exit_code_reporting at signal 9. -/
theorem C3_exit_code_reporting_witness :
    (Darwin.darwinFinish 0 0 {} ⟨0, 0⟩ (WaitStatus.signaled 9)).exitCode
      = none :=
  C3_exit_code_reporting.2.1 0 0 {} ⟨0, 0⟩ 9 (by decide)

/-- C4 counterexample.  The claim states that cancel() returns true
when the monitor is still watching.  The cancel lambda exposed by
SpawnProcess calls SignalStop but discards its boolean and has no
return statement, so the JS call evaluates to undefined (none), never
true, even on a fresh open channel. -/
theorem C4_counterexample :
    ((⟨false, true, false⟩ : Darwin.SharedStopState).closed = false) ∧
    (Darwin.cancelOp ⟨false, true, false⟩).2 ≠ some true := by decide

/-- C4, amended.  The underlying SignalStop returns true exactly when
the channel is not closed and the wake-up primitive is valid, in
which case it fires the primitive, and it returns false after Close;
but the exposed cancel function discards that boolean and returns
undefined. -/
theorem C4_cancel_semantics :
    ∀ s : Darwin.SharedStopState,
      ((Darwin.signalStop s).2 = true ↔
        (s.closed = false ∧ s.primitiveValid = true)) ∧
      ((Darwin.signalStop s).1.triggered
        = (s.triggered || (Darwin.signalStop s).2)) ∧
      (Darwin.cancelOp s).2 = none ∧
      (Darwin.signalStop (Darwin.closeState s)).2 = false := by
  rintro ⟨c, v, g⟩
  cases c <;> cases v <;> cases g <;> decide

/-- Witness for C4_cancel_semantics on a fresh open channel. -/
theorem C4_cancel_semantics_witness :
    (Darwin.signalStop ⟨false, true, false⟩).2 = true :=
  (C4_cancel_semantics ⟨false, true, false⟩).1.mpr ⟨rfl, rfl⟩

/-- C5 counterexample.  The claim requires exit-notification to take
priority over cancellation whenever both are available at a wake-up.
The darwin loop dequeues a single kevent; when both the process-exit
event and the user event are pending the kernel may return either,
and the handler checks EVFILT_USER first, so a child that exited
naturally (status: exited 0) can be recorded with stopped = true. -/
theorem C5_counterexample :
    Darwin.darwinExecute 0 0
        [⟨Darwin.kqueueDeliver true true true, ⟨0, 0, 0, false⟩, 0⟩]
        ⟨0, 0⟩ (WaitStatus.exited 0) =
      some { elapsedMs := 0, peakMemoryBytes := 0, exitCode := some 0,
             timedOut := false, memoryLimitExceeded := false,
             stopped := true } := by decide

/-- C5, amended.  On Windows the two-handle wait returns the
lowest-index signalled object, so a signalled process handle always
beats a signalled stop event and the natural exit is recorded with
stopped = false; on macOS the recorded cause follows whichever single
event the kernel delivers: when the delivered event is the
process-exit event the natural exit is recorded with stopped = false,
but a delivered user event wins even if the child has already
exited. -/
theorem C5_tie_break :
    (∀ (t : Nat) (it : Win32.Iter) (its : List Win32.Iter),
      ¬(t > 0 ∧ it.elapsedWall ≥ t * 2) → it.processSignaled = true →
      Win32.win32Loop t (it :: its) {} =
        some { timedOut := false, memoryLimitExceeded := false,
               stopped := false, processExited := true }) ∧
    (∀ (t m : Nat) (w : Darwin.WakeEvent) (ws : List Darwin.WakeEvent)
        (ru : Rusage) (c : Nat),
      w.delivered = some Darwin.KFilter.proc →
      Darwin.darwinExecute t m (w :: ws) ru (WaitStatus.exited c) =
        some (Darwin.darwinFinish t m {} ru (WaitStatus.exited c)) ∧
      (Darwin.darwinFinish t m {} ru (WaitStatus.exited c)).stopped = false ∧
      (Darwin.darwinFinish t m {} ru (WaitStatus.exited c)).exitCode
        = some (c : Int)) := by
  refine ⟨Win32.win32Loop_exit_priority, ?_⟩
  intro t m w ws ru c hd
  refine ⟨?_, rfl, Darwin.darwinFinish_exited_code t m {} ru c⟩
  unfold Darwin.darwinExecute
  rw [Darwin.darwinLoop_delivered_proc t m w ws {} hd]
  rfl

/-- Witness for C5_tie_break with both handles signalled on Windows
and a delivered exit event on macOS. -/
theorem C5_tie_break_witness :
    Win32.win32Loop 0 [⟨0, true, true, none⟩] {} =
      some { timedOut := false, memoryLimitExceeded := false,
             stopped := false, processExited := true } ∧
    (Darwin.darwinExecute 0 0 [⟨some Darwin.KFilter.proc, ⟨0, 0, 0, false⟩, 0⟩]
        ⟨0, 0⟩ (WaitStatus.exited 0) =
      some (Darwin.darwinFinish 0 0 {} ⟨0, 0⟩ (WaitStatus.exited 0))) :=
  ⟨C5_tie_break.1 0 ⟨0, true, true, none⟩ [] (by decide) rfl,
   (C5_tie_break.2 0 0 ⟨some Darwin.KFilter.proc, ⟨0, 0, 0, false⟩, 0⟩ []
      ⟨0, 0⟩ 0 rfl).1⟩

/-- C6 counterexample.  The claim requires the memory check to come
first on every poll tick, with the CPU/time check only afterwards.
On this linux iteration the wall-clock time limit (100 ms) is reached
and the memory sample (2000 bytes against a 1000 byte limit) is also
over, yet the loop flags timedOut and not memoryLimitExceeded,
because the linux loop checks the time limit at the top of the
iteration, before the memory check. -/
theorem C6_counterexample :
    LinuxMon.linuxExecute 100 1000 [⟨100000, false, some 2000⟩] ⟨0, 2000⟩
        (WaitStatus.signaled 9) =
      some { elapsedCpuUs := 0, peakMemoryBytes := 2000, exitCode := 137,
             timedOut := true, memoryLimitExceeded := false,
             stopped := false } := by decide

/-- C6, amended.  On the macOS monitor each successful-probe tick
checks memory first (breaking with memory_limit_exceeded) and checks
the CPU limit only when the memory limit is not exceeded; on the
linux monitor each iteration checks the wall-clock time limit first,
before the wait and before the memory sample, so there the time
check precedes the memory check. -/
theorem C6_tick_order :
    (∀ (t m : Nat) (w : Darwin.WakeEvent) (f : LoopFlags),
      m > 0 → w.stats.success = true → w.stats.resident_size > m →
      Darwin.darwinTick t m w f =
        some { f with memoryLimitExceeded := true }) ∧
    (∀ (t m : Nat) (w : Darwin.WakeEvent) (f : LoopFlags),
      t > 0 → w.stats.success = true → ¬(m > 0 ∧ w.stats.resident_size > m) →
      w.stats.total_cpu_time_ns > t * 1000000 →
      Darwin.darwinTick t m w f = some { f with timedOut := true }) ∧
    (∀ (t m : Nat) (it : LinuxMon.Iter) (its : List LinuxMon.Iter)
        (s : LinuxMon.LoopState),
      t > 0 → it.elapsedUs ≥ t * 1000 →
      LinuxMon.linuxLoop t m (it :: its) s =
        some { s with timedOut := true, processExited := true }) :=
  ⟨Darwin.darwinTick_memFirst,
   fun t m w f ht hs hmem hcpu => Darwin.darwinTick_cpuSecond t m w f ht hs hmem hcpu,
   LinuxMon.linuxLoop_timeFirst⟩

/-- Witness for C6_tick_order on concrete over-limit ticks. -/
theorem C6_tick_order_witness :
    Darwin.darwinTick 0 1000 ⟨none, ⟨2000, 0, 0, true⟩, 0⟩ {} =
      some { timedOut := false, memoryLimitExceeded := true,
             stopped := false } ∧
    LinuxMon.linuxLoop 100 0 [⟨100000, false, none⟩] {} =
      some { timedOut := true, memoryLimitExceeded := false,
             stopped := false, processExited := true } :=
  ⟨C6_tick_order.1 0 1000 ⟨none, ⟨2000, 0, 0, true⟩, 0⟩ {} (by decide) rfl
      (by decide),
   C6_tick_order.2.2 100 0 ⟨100000, false, none⟩ [] {} (by decide) (by decide)⟩

/-- C7 counterexample.  The claim requires a post-reap re-check of
the final stats on every platform under limits.  On linux a child
that exits naturally with a recorded peak of 2000 bytes against a
1000 byte memory limit is resolved with memoryLimitExceeded = false:
the linux Execute copies the loop flags into the record without any
post-mortem re-check. -/
theorem C7_counterexample :
    LinuxMon.linuxExecute 0 1000 [⟨0, true, none⟩] ⟨5000, 2000⟩
        (WaitStatus.exited 0) =
      some { elapsedCpuUs := 5000, peakMemoryBytes := 2000, exitCode := 0,
             timedOut := false, memoryLimitExceeded := false,
             stopped := false } := by decide

/-- C7, amended.  The post-mortem re-check exists on the macOS
monitor only: there, after reaping, a final peak memory above the
limit sets memory_limit_exceeded and a rounded CPU total above the
limit sets timed_out, regardless of what the loop detected; the
linux monitor copies the loop flags into the record unchanged. -/
theorem C7_postmortem :
    (∀ (t m : Nat) (f : LoopFlags) (ru : Rusage) (st : WaitStatus),
      m > 0 → ru.maxrssBytes > m →
      (Darwin.darwinFinish t m f ru st).memoryLimitExceeded = true) ∧
    (∀ (t m : Nat) (f : LoopFlags) (ru : Rusage) (st : WaitStatus),
      t > 0 → (ru.cpuUs + 500) / 1000 > t →
      (Darwin.darwinFinish t m f ru st).timedOut = true) ∧
    (∀ (ru : Rusage) (st : WaitStatus) (s : LinuxMon.LoopState),
      (LinuxMon.linuxFinish ru st s).timedOut = s.timedOut ∧
      (LinuxMon.linuxFinish ru st s).memoryLimitExceeded
        = s.memoryLimitExceeded) :=
  ⟨Darwin.darwinFinish_postmortem_mem, Darwin.darwinFinish_postmortem_cpu,
   fun ru st s => ⟨rfl, rfl⟩⟩

/-- Witness for C7_postmortem on a concrete over-limit reap. -/
theorem C7_postmortem_witness :
    (Darwin.darwinFinish 0 1000 {} ⟨0, 2000⟩
        (WaitStatus.exited 0)).memoryLimitExceeded = true ∧
    (Darwin.darwinFinish 100 0 {} ⟨200500, 0⟩
        (WaitStatus.exited 0)).timedOut = true :=
  ⟨C7_postmortem.1 0 1000 {} ⟨0, 2000⟩ (WaitStatus.exited 0) (by decide)
      (by decide),
   C7_postmortem.2.1 100 0 {} ⟨200500, 0⟩ (WaitStatus.exited 0) (by decide)
      (by decide)⟩

/-- C8 (confirmed).  On Windows, when the raw exit status is the
quota-exceeded code 0xC0000044 or 0x705 and a CPU-time limit is
configured, the classifier disambiguates by accumulated user time:
the resolved record has timed_out = true when the user time is at
least 95 percent of the limit (the C++ compares
totalUserTime100ns >= timeLimit100ns * 0.95 in double, modelled here
as the exact comparison 20 u >= 19 L over the 100 ns quantities), and
memory_limit_exceeded = true otherwise. -/
theorem C8_quota_disambiguation :
    ∀ (t m ec u pk el : Nat) (s : Win32.LoopState),
      (ec = 0xC0000044 ∨ ec = 0x705) → 0 < t →
      ((20 * u ≥ 19 * (t * 10000) →
        (Win32.win32BuildResult ec el pk
          (Win32.win32Classify t m ec u pk s)).timedOut = true) ∧
       (20 * u < 19 * (t * 10000) →
        (Win32.win32BuildResult ec el pk
          (Win32.win32Classify t m ec u pk s)).memoryLimitExceeded = true)) := by
  intro t m ec u pk el s hec ht
  constructor
  · intro hu
    rw [Win32.win32Classify_quota_timeout t m ec u pk s hec ht hu]
    rfl
  · intro hu
    rw [Win32.win32Classify_quota_memory t m ec u pk s hec ht
      (not_le.mpr hu)]
    rfl

/-- Witness for C8_quota_disambiguation: a 1000 ms limit with
10000000 x 100 ns of user time (100 percent) classifies as timed out,
and with 100 x 100 ns (far below 95 percent) as memory limit
exceeded. -/
theorem C8_quota_disambiguation_witness :
    (Win32.win32BuildResult 0xC0000044 0 0
      (Win32.win32Classify 1000 0 0xC0000044 10000000 0 {})).timedOut = true ∧
    (Win32.win32BuildResult 0xC0000044 0 0
      (Win32.win32Classify 1000 0 0xC0000044 100 0 {})).memoryLimitExceeded
        = true :=
  ⟨(C8_quota_disambiguation 1000 0 0xC0000044 10000000 0 0 {} (Or.inl rfl)
      (by decide)).1 (by decide),
   (C8_quota_disambiguation 1000 0 0xC0000044 100 0 0 {} (Or.inl rfl)
      (by decide)).2 (by decide)⟩

/-- C9 (confirmed).  Arguments are passed as a literal vector with no
shell parsing: on POSIX both the darwin monitor and the judge worker
hand each string to exec / uv_spawn as one argv entry unchanged, and
on Windows the token produced by QuoteArg parses back to exactly the
original string under the Windows command-line splitting rules for
backslashes and quotes, both at the end of the command line and when
followed by a space and further text, for every string including ones
with spaces, tabs, quotes, backslashes and the empty string. -/
theorem C9_verbatim_args :
    (∀ (c : String) (as : List String), Darwin.buildArgv c as = c :: as) ∧
    (∀ cmd : List String, Judge.buildArgs cmd = cmd) ∧
    (∀ arg : List Char, WinCmd.parseTok false 0 (WinCmd.quoteArg arg) = arg) ∧
    (∀ (arg rest : List Char),
      WinCmd.parseTok false 0 (WinCmd.quoteArg arg ++ (' ' :: rest)) = arg) := by
  refine ⟨fun c as => rfl, fun cmd => rfl, ?_, ?_⟩
  · intro arg
    have h := WinCmd.quoteArg_roundTrip arg [] WinCmd.parseTok_end_nil
    simpa using h
  · intro arg rest
    exact WinCmd.quoteArg_roundTrip arg (' ' :: rest)
      (fun k => WinCmd.parseTok_end_space k rest)

/-- C10 (confirmed).  Once the JudgeWorker destructor has marked the
shared stdin state inactive, writeStdin, endStdin and kill on the
process handle are silent no-ops: each returns normally, sends no
async signal, and leaves the shared state unchanged. -/
theorem C10_inactive_noop :
    ∀ (s : Judge.StdinState) (data : String),
      Judge.writeStdin (Judge.workerFinish s) data
        = (Judge.workerFinish s, false) ∧
      Judge.endStdin (Judge.workerFinish s) = (Judge.workerFinish s, false) ∧
      Judge.killOp (Judge.workerFinish s) = (Judge.workerFinish s, false) := by
  intro s data
  refine ⟨?_, ?_, ?_⟩ <;>
    simp [Judge.writeStdin, Judge.endStdin, Judge.killOp, Judge.workerFinish]

end Spec2Proof
